import Mathlib

/-!
Shallow embedding of the gravity-sim repository
(`src/graphics/mod.rs`, `src/simulation/mod.rs`).

Conventions:
* `f32` scalars are modelled as exact rationals (`ℚ`); `u32`/`usize` as `ℕ`;
  `i32` as `ℤ`.
* `Vector2D<f32>` is modelled by `Vec2` below.
* `f32::sqrt` is modelled by `sqrtQ`, which is exact on arguments that are
  squares of rationals (the only arguments whose value any theorem below
  inspects) and returns the junk value `0` elsewhere, where no exact rational
  root exists.
* Fallible operations (Rust panics: `unimplemented!`, out-of-range
  `Vec::remove`) are modelled with `Option`, `none` standing for a panic.
* `usize` subtraction is modelled by truncated `ℕ` subtraction; the one place
  the source can underflow is noted at its definition.
-/

/-- Largest `k` with `k * k ≤ n`: an executable integer square root used by
`sqrtQ`.  (Defined by counting rather than by `Nat.sqrt` so that it reduces
inside the kernel.) -/
def isqrt (n : ℕ) : ℕ :=
  ((List.range (n + 1)).filter (fun k => k * k ≤ n)).length - 1

/-- Rational stand-in for `f32::sqrt`: exact square root when the argument is
the square of a rational, `0` otherwise (no exact rational root exists there;
no theorem below depends on those values).  Negative arguments (never produced
by the source, which only takes square roots of sums of squares) also map
to `0`. -/
def sqrtQ (q : ℚ) : ℚ :=
  if q < 0 then 0
  else if isqrt q.num.toNat * isqrt q.num.toNat = q.num.toNat ∧
          isqrt q.den * isqrt q.den = q.den then
    (isqrt q.num.toNat : ℚ) / (isqrt q.den : ℚ)
  else 0

/-- Rust `f32::clamp(lo, hi)` (defined behaviour requires `lo ≤ hi`;
Rust panics otherwise, a case no source call site reaches with the
constant ranges used). -/
def clampQ (v lo hi : ℚ) : ℚ :=
  if v < lo then lo else if v > hi then hi else v

/-- Rust `u32::clamp(lo, hi)`, same semantics as `clampQ` on `ℕ`. -/
def clampNat (v lo hi : ℕ) : ℕ :=
  if v < lo then lo else if v > hi then hi else v

/-- Rust `f32 as i32`: truncation toward zero.  `Int.tdiv` is T-division,
which matches. -/
def truncQ (q : ℚ) : ℤ :=
  Int.tdiv q.num (q.den : ℤ)

/-- `Vector2D<f32>` from the `vector2d` crate. -/
structure Vec2 where
  x : ℚ
  y : ℚ
  deriving DecidableEq

instance : Add Vec2 := ⟨fun a b => ⟨a.x + b.x, a.y + b.y⟩⟩

instance : Sub Vec2 := ⟨fun a b => ⟨a.x - b.x, a.y - b.y⟩⟩

instance : Neg Vec2 := ⟨fun a => ⟨-a.x, -a.y⟩⟩

/-- `Vector2D::length`: `sqrt(x² + y²)`. -/
def Vec2.length (v : Vec2) : ℚ :=
  sqrtQ (v.x * v.x + v.y * v.y)

/-- `Vector2D::normalise`: `self / self.length()`.  The crate's `f32` version
produces NaN components for the zero vector; per the spec (§3, Force) the
zero vector normalises to the zero vector, and no theorem below inspects the
value at zero. -/
def Vec2.normalise (v : Vec2) : Vec2 :=
  if v.length = 0 then ⟨0, 0⟩ else ⟨v.x / v.length, v.y / v.length⟩

/-- `graphics::Color` (three `u8` channels, modelled as `ℕ`). -/
structure Color where
  r : ℕ
  g : ℕ
  b : ℕ
  deriving DecidableEq

/-- `Color::new`. -/
def Color.new (r g b : ℕ) : Color := ⟨r, g, b⟩

-- ----------------------------------------------------------------
-- simulation/mod.rs: constants

/-- `const DEFAULT_GRAV_CONST: f32 = 0.005`. -/
def DEFAULT_GRAV_CONST : ℚ := 1 / 200

/-- `const MAX_FORCE_AMPLITUDE: Option<f32> = Some(10.0)`. -/
def MAX_FORCE_AMPLITUDE : Option ℚ := some 10

/-- `const MAX_TRAIL_LENGTH: Option<usize> = Some(1000)`. -/
def MAX_TRAIL_LENGTH : Option ℕ := some 1000

/-- `const NUM_OF_BODIES: usize = 10`. -/
def NUM_OF_BODIES : ℕ := 10

/-- Stand-in for `f32::MAX` (only reachable through
`MAX_FORCE_AMPLITUDE.unwrap_or(f32::MAX)`, whose argument is `Some`). -/
def F32_MAX : ℚ := 2 ^ 128

-- ----------------------------------------------------------------
-- simulation/mod.rs: Force

/-- `simulation::Force`: a direction plus an amplitude. -/
structure Force where
  direction : Vec2
  amplitude : ℚ
  deriving DecidableEq

/-- `Force::new`: stores the normalised direction and the amplitude's
absolute value clamped to `[0, MAX_FORCE_AMPLITUDE]`. -/
def Force.new (direction : Vec2) (amplitude : ℚ) : Force :=
  { direction := direction.normalise
    amplitude := clampQ |amplitude| 0 (MAX_FORCE_AMPLITUDE.getD F32_MAX) }

/-- `Force::as_vector2d`: `direction * amplitude`, componentwise. -/
def Force.as_vector2d (f : Force) : Vec2 :=
  ⟨f.direction.x * f.amplitude, f.direction.y * f.amplitude⟩

/-- `impl Add for Force`. -/
instance : Add Force :=
  ⟨fun f g =>
    let out_vector := f.as_vector2d + g.as_vector2d
    let normal := out_vector.normalise
    Force.new normal
      (out_vector.length / if normal.length ≠ 0 then normal.length else 1)⟩

/-- `impl Neg for Force`: flips the direction field directly (no
re-normalisation), keeps the amplitude. -/
instance : Neg Force :=
  ⟨fun f => { direction := -f.direction, amplitude := f.amplitude }⟩

-- ----------------------------------------------------------------
-- simulation/mod.rs: PhysicsBody

/-- `simulation::PhysicsBody`. -/
structure PhysicsBody where
  pos : Vec2
  mass : ℚ
  radius : ℚ
  momentum : Force
  color : Color
  trail : List Vec2
  deriving DecidableEq

/-- `PhysicsBody::new`: radius is derived as `mass / 5.0`; the trail starts
empty (`Vec::with_capacity` allocates an empty vector). -/
def PhysicsBody.new (pos : Vec2) (mass : ℚ) (momentum : Force) (color : Color) :
    PhysicsBody :=
  { pos, mass, radius := mass / 5, momentum, color, trail := [] }

/-- `PhysicsBody::set_pos`. -/
def PhysicsBody.set_pos (b : PhysicsBody) (val : Vec2) : PhysicsBody :=
  { b with pos := val }

/-- `PhysicsBody::set_momentum`. -/
def PhysicsBody.set_momentum (b : PhysicsBody) (val : Force) : PhysicsBody :=
  { b with momentum := val }

/-- `PhysicsBody::move_self`: `pos += momentum.as_vector2d()`. -/
def PhysicsBody.move_self (b : PhysicsBody) : PhysicsBody :=
  { b with pos := b.pos + b.momentum.as_vector2d }

/-- The trail update performed by `PhysicsBody::add_trail` on the trail
vector: push the given position, then `remove(0)` once if the length now
exceeds `MAX_TRAIL_LENGTH`. -/
def trailStep (trail : List Vec2) (p : Vec2) : List Vec2 :=
  let t := trail ++ [p]
  match MAX_TRAIL_LENGTH with
  | some v => if v < t.length then t.drop 1 else t
  | none => t

/-- `PhysicsBody::add_trail`: records the current position on the trail. -/
def PhysicsBody.add_trail (b : PhysicsBody) : PhysicsBody :=
  { b with trail := trailStep b.trail b.pos }

/-- `PhysicsBody::distance_between`: Euclidean distance
`sqrt((Δx)² + (Δy)²)`. -/
def PhysicsBody.distance_between (b other : PhysicsBody) : ℚ :=
  sqrtQ ((other.pos.x - b.pos.x) ^ 2 + (other.pos.y - b.pos.y) ^ 2)

/-- `PhysicsBody::intersects`: centre distance strictly below the sum of the
radii. -/
def PhysicsBody.intersects (b other : PhysicsBody) : Prop :=
  b.distance_between other < b.radius + other.radius

instance (b other : PhysicsBody) : Decidable (b.intersects other) := by
  unfold PhysicsBody.intersects
  infer_instance

/-- Placeholder body used as the (never reached) default of list indexing in
the tick functions, where every index is below the list length. -/
def dummyBody : PhysicsBody :=
  PhysicsBody.new ⟨0, 0⟩ 0 (Force.new ⟨0, 0⟩ 0) (Color.new 0 0 0)

-- ----------------------------------------------------------------
-- simulation/mod.rs: Simulation

/-- `simulation::CollisionMode`. -/
inductive CollisionMode where
  | None
  | Collide
  | Absorb
  | Delete
  deriving DecidableEq

/-- `simulation::SimulationInput`. -/
structure SimulationInput where
  add_body : Bool
  remove_body : Bool
  print_body : Bool
  selected_body : Bool
  up_speed : Bool
  down_speed : Bool
  reset_contents : Bool
  mouse_world_pos : Option Vec2
  mouse_scroll_wheel : Option ℚ

/-- `simulation::Simulation`. -/
structure Simulation where
  bodies : List PhysicsBody
  selected_body : Option ℕ
  grav_const : ℚ
  physics_speed : ℕ
  collision_mode : CollisionMode
  deriving DecidableEq

/-- `Simulation::new`: note that `physics_speed` is stored as
`physics_speed.unwrap_or(1)`, without clamping. -/
def Simulation.new (bodies : List PhysicsBody) (grav_const : Option ℚ)
    (physics_speed : Option ℕ) (collision_mode : CollisionMode) : Simulation :=
  { bodies
    selected_body := none
    grav_const := grav_const.getD DEFAULT_GRAV_CONST
    physics_speed := physics_speed.getD 1
    collision_mode }

/-- `Simulation::set_physics_speed`: `val.clamp(1, 16)`. -/
def Simulation.set_physics_speed (s : Simulation) (val : ℕ) : Simulation :=
  { s with physics_speed := clampNat val 1 16 }

/-- `Simulation::add_body`: pushes at the back. -/
def Simulation.add_body (s : Simulation) (b : PhysicsBody) : Simulation :=
  { s with bodies := s.bodies ++ [b] }

/-- `Simulation::remove_body`: no-op when `i` is out of range; otherwise
removes the body at `i` and patches the selection: clears it when it equals
`i`, decrements it when `i > selected` (the source's literal comparison), and
keeps it otherwise.  When `i > selected` and `selected = 0` the source's
`selected_body - 1` underflows `usize` (a debug-build panic); `ℕ`
subtraction truncates instead, and no theorem below touches that case. -/
def Simulation.remove_body (s : Simulation) (i : ℕ) : Simulation :=
  if i < s.bodies.length then
    { s with
      bodies := s.bodies.eraseIdx i
      selected_body :=
        match s.selected_body with
        | none => none
        | some sel => if sel = i then none else if i > sel then some (sel - 1) else some sel }
  else s

/-- `Simulation::get_bodies_on_point`: bodies whose squared distance to `p`
is below their squared radius. -/
def Simulation.get_bodies_on_point (s : Simulation) (p : Vec2) : List PhysicsBody :=
  s.bodies.filter
    (fun x => decide ((x.pos.x - p.x) ^ 2 + (x.pos.y - p.y) ^ 2 < x.radius ^ 2))

/-- `Simulation::get_body_on_point_index`: index of the first such body. -/
def Simulation.get_body_on_point_index (s : Simulation) (p : Vec2) : Option ℕ :=
  s.bodies.findIdx?
    (fun x => decide ((x.pos.x - p.x) ^ 2 + (x.pos.y - p.y) ^ 2 < x.radius ^ 2))

/-- `Simulation::gravity_between`: magnitude `G·m₁·m₂ / max(dist, 1)²` along
the unit vector from `body2` to `body1` (the distance floor avoids the
near-zero singularity). -/
def Simulation.gravity_between (s : Simulation) (body1 body2 : PhysicsBody) : Force :=
  let dist_between := body1.distance_between body2
  Force.new
    (Vec2.normalise ⟨body1.pos.x - body2.pos.x, body1.pos.y - body2.pos.y⟩)
    ((s.grav_const * body1.mass * body2.mass) /
      (if dist_between > 1 then dist_between else 1) ^ 2)

/-- `itertools`' `(0..n).permutations(2)`: every ordered pair of distinct
indices, first component outermost, in iteration order. -/
def permutations2 (n : ℕ) : List (ℕ × ℕ) :=
  (List.range n).flatMap fun i =>
    ((List.range n).filter (fun j => j ≠ i)).map (fun j => (i, j))

/-- `itertools`' `(0..n).combinations(2)`: every unordered pair `i < j` in
lexicographic order. -/
def combinations2 (n : ℕ) : List (ℕ × ℕ) :=
  (List.range n).flatMap fun i =>
    ((List.range n).filter (fun j => i < j)).map (fun j => (i, j))

/-- In-place update of one list element, as in `self.bodies[i] = …`
(indices are always in range at the call sites below). -/
def modifyIdx {α : Type} : List α → ℕ → (α → α) → List α
  | [], _, _ => []
  | a :: t, 0, f => f a :: t
  | a :: t, n + 1, f => a :: modifyIdx t n f

/-- `Simulation::gravity_tick`: against a snapshot of the bodies, for every
ordered pair `(i, j)` of distinct indices add the negated attraction of
`bodies[j]` on `bodies[i]` to the momentum of the (current) body `i`. -/
def Simulation.gravity_tick (s : Simulation) : Simulation :=
  let bodies := s.bodies
  { s with
    bodies :=
      (permutations2 s.bodies.length).foldl
        (fun acc ij =>
          let grav_force_temp :=
            -(s.gravity_between (bodies.getD ij.1 dummyBody) (bodies.getD ij.2 dummyBody))
          modifyIdx acc ij.1 (fun b => b.set_momentum (b.momentum + grav_force_temp)))
        s.bodies }

/-- `Vec::remove(i)`, which panics (`none`) when `i` is out of range. -/
def removeAt? {α : Type} (l : List α) (i : ℕ) : Option (List α) :=
  if i < l.length then some (l.eraseIdx i) else none

/-- `Vec::dedup`: removes *consecutive* duplicates only, keeping the first
element of each run. -/
def dedupConsec : List ℕ → List ℕ
  | [] => []
  | a :: t => a :: dedupLoop a t
where
  /-- Tail of `dedupConsec`: `prev` is the last kept element. -/
  dedupLoop (prev : ℕ) : List ℕ → List ℕ
    | [] => []
    | b :: t => if b = prev then dedupLoop prev t else b :: dedupLoop b t

/-- The index list collected by the `Delete` arm of
`Simulation::collision_tick`: both members of every intersecting unordered
pair, in pair order. -/
def Simulation.collision_to_del (s : Simulation) : List ℕ :=
  let bodies := s.bodies
  (combinations2 s.bodies.length).foldl
    (fun acc ij =>
      if (bodies.getD ij.1 dummyBody).intersects (bodies.getD ij.2 dummyBody) then
        acc ++ [ij.1, ij.2]
      else acc)
    []

/-- `Simulation::collision_tick`.  `none` models a panic: the
`unimplemented!()` arms, and an out-of-range `Vec::remove` in the `Delete`
arm (the collected list is only `dedup`-ed of consecutive duplicates and is
then removed in reversed collection order). -/
def Simulation.collision_tick (s : Simulation) : Option Simulation :=
  match s.collision_mode with
  | CollisionMode.None => some s
  | CollisionMode.Collide => none
  | CollisionMode.Absorb => none
  | CollisionMode.Delete =>
      ((dedupConsec s.collision_to_del).reverse.foldl
        (fun acc x => acc.bind (fun l => removeAt? l x)) (some s.bodies)).map
        (fun bs => { s with bodies := bs })

/-- The `add_body` block of `Simulation::handle_user_input`.
`PhysicsBody::new_rand` draws from the process-global RNG; following the
spec's design note (§9) the random source is injected: `fresh k` is the
`k`-th body the RNG would produce. -/
def Simulation.hui_add_body (s : Simulation) (input : SimulationInput)
    (fresh : ℕ → PhysicsBody) : Simulation :=
  if input.add_body then
    match input.mouse_world_pos with
    | some p => s.add_body ((fresh 0).set_pos p)
    | none => s
  else s

/-- The `remove_body` block of `Simulation::handle_user_input`. -/
def Simulation.hui_remove_body (s : Simulation) (input : SimulationInput) : Simulation :=
  if input.remove_body then
    match input.mouse_world_pos with
    | some p =>
        match s.get_body_on_point_index p with
        | some i => s.remove_body i
        | none => s
    | none => s
  else s

/-- The `selected_body` block of `Simulation::handle_user_input`.  (The
`print_body` block between it and `remove_body` only writes to the console
and leaves the state unchanged, so it has no embedding.) -/
def Simulation.hui_select (s : Simulation) (input : SimulationInput) : Simulation :=
  if input.selected_body then
    match input.mouse_world_pos with
    | some p => { s with selected_body := s.get_body_on_point_index p }
    | none => s
  else s

/-- The `up_speed` block of `Simulation::handle_user_input`. -/
def Simulation.hui_up_speed (s : Simulation) (input : SimulationInput) : Simulation :=
  if input.up_speed then s.set_physics_speed (s.physics_speed + 1) else s

/-- The `down_speed` block of `Simulation::handle_user_input`. -/
def Simulation.hui_down_speed (s : Simulation) (input : SimulationInput) : Simulation :=
  if input.down_speed then
    s.set_physics_speed (if s.physics_speed > 0 then s.physics_speed - 1 else 1)
  else s

/-- The `reset_contents` block of `Simulation::handle_user_input`: clears the
selection and regenerates `NUM_OF_BODIES` random bodies. -/
def Simulation.hui_reset (s : Simulation) (input : SimulationInput)
    (fresh : ℕ → PhysicsBody) : Simulation :=
  if input.reset_contents then
    { s with
      selected_body := none
      bodies := (List.range NUM_OF_BODIES).map fresh }
  else s

/-- `Simulation::handle_user_input`: the source's sequential `if` blocks,
applied in source order. -/
def Simulation.handle_user_input (s : Simulation) (input : SimulationInput)
    (fresh : ℕ → PhysicsBody) : Simulation :=
  (((((s.hui_add_body input fresh).hui_remove_body input).hui_select
      input).hui_up_speed input).hui_down_speed input).hui_reset input fresh

-- ----------------------------------------------------------------
-- graphics/mod.rs: Scene

/-- `graphics::SceneUserInput`. -/
structure SceneUserInput where
  move_up : Bool
  move_down : Bool
  move_right : Bool
  move_left : Bool
  zoom_in : Bool
  zoom_out : Bool
  reset_view : Bool
  mouse_screen_pos : Option Vec2
  mouse_scroll_wheel : Option ℚ

/-- `graphics::Scene`.  The `contents: Vec<Box<dyn Draw>>` field (the
drawable list) is not modelled: no operation below reads it, and the claims
under study concern only the camera state. -/
structure Scene where
  res : ℕ × ℕ
  offset : Vec2
  scale : ℚ
  min_max_scale : Option Vec2
  base_scale : ℚ

/-- `Scene::new`: offset `(0,0)`, scale `1`, `base_scale = res.x / 500`. -/
def Scene.new (res : ℕ × ℕ) (min_max_scale : Option Vec2) : Scene :=
  { res
    offset := ⟨0, 0⟩
    scale := 1
    min_max_scale
    base_scale := (res.1 : ℚ) / 500 }

/-- `Scene::get_scale`: the effective zoom `base_scale * scale`. -/
def Scene.get_scale (s : Scene) : ℚ :=
  s.base_scale * s.scale

/-- `Scene::set_scale`: clamps into the `(min, max)` range when one is set
(`x` is the minimum, `y` the maximum of the stored vector). -/
def Scene.set_scale (s : Scene) (val : ℚ) : Scene :=
  match s.min_max_scale with
  | some x => { s with scale := clampQ val x.x x.y }
  | none => { s with scale := val }

/-- `Scene::set_offset`. -/
def Scene.set_offset (s : Scene) (val : Vec2) : Scene :=
  { s with offset := val }

/-- `Scene::change_scale`: `set_scale(scale + amount)`, then, when the scale
actually changed, recentre the offset so that the screen midpoint stays
fixed. -/
def Scene.change_scale (s : Scene) (amount : ℚ) : Scene :=
  let scale_old := s.scale
  let s' := s.set_scale (s.scale + amount)
  if s'.scale - scale_old ≠ 0 then
    { s' with
      offset :=
        ⟨s'.offset.x -
            ((s'.res.1 : ℚ) / (s'.base_scale * scale_old) - (s'.res.1 : ℚ) / s'.get_scale) / 2,
          s'.offset.y -
            ((s'.res.2 : ℚ) / (s'.base_scale * scale_old) - (s'.res.2 : ℚ) / s'.get_scale) / 2⟩ }
  else s'

/-- `Scene::screen_to_world_coords`: `pos / get_scale() - offset`,
componentwise. -/
def Scene.screen_to_world_coords (s : Scene) (pos : Vec2) : Vec2 :=
  ⟨pos.x / s.get_scale - s.offset.x, pos.y / s.get_scale - s.offset.y⟩

/-- `Scene::world_to_screen_coords`: the source body is `unimplemented!()`,
so every call panics; modelled as the constantly-`none` function. -/
def Scene.world_to_screen_coords (_s : Scene) (_pos : Vec2) : Option Vec2 :=
  none

/-- Modelled from the spec: `world_to_screen` is missing from the source
(its body is `unimplemented!()`); the spec (§4.3) prescribes the algebraic
inverse of `screen_to_world`, namely `(p + offset) * effective_scale`. -/
def Scene.world_to_screen_spec (s : Scene) (pos : Vec2) : Vec2 :=
  ⟨(pos.x + s.offset.x) * s.get_scale, (pos.y + s.offset.y) * s.get_scale⟩

/-- The `move_up` block of `Scene::handle_user_input`: pan the offset by
`5 / get_scale()`. -/
def Scene.hui_move_up (s : Scene) (input : SceneUserInput) : Scene :=
  if input.move_up then s.set_offset ⟨s.offset.x, s.offset.y + 5 / s.get_scale⟩ else s

/-- The `move_down` block of `Scene::handle_user_input`. -/
def Scene.hui_move_down (s : Scene) (input : SceneUserInput) : Scene :=
  if input.move_down then s.set_offset ⟨s.offset.x, s.offset.y - 5 / s.get_scale⟩ else s

/-- The `move_left` block of `Scene::handle_user_input`. -/
def Scene.hui_move_left (s : Scene) (input : SceneUserInput) : Scene :=
  if input.move_left then s.set_offset ⟨s.offset.x + 5 / s.get_scale, s.offset.y⟩ else s

/-- The `move_right` block of `Scene::handle_user_input`. -/
def Scene.hui_move_right (s : Scene) (input : SceneUserInput) : Scene :=
  if input.move_right then s.set_offset ⟨s.offset.x - 5 / s.get_scale, s.offset.y⟩ else s

/-- The `zoom_in` block of `Scene::handle_user_input`:
`change_scale(0.05)`. -/
def Scene.hui_zoom_in (s : Scene) (input : SceneUserInput) : Scene :=
  if input.zoom_in then s.change_scale (1 / 20) else s

/-- The `zoom_out` block of `Scene::handle_user_input`:
`change_scale(-0.05)`. -/
def Scene.hui_zoom_out (s : Scene) (input : SceneUserInput) : Scene :=
  if input.zoom_out then s.change_scale (-(1 / 20)) else s

/-- The scroll block of `Scene::handle_user_input`: a scroll delta is read
only when a mouse position is present and calls `change_scale(delta)`. -/
def Scene.hui_scroll (s : Scene) (input : SceneUserInput) : Scene :=
  match input.mouse_screen_pos with
  | some _ =>
      match input.mouse_scroll_wheel with
      | some w => s.change_scale w
      | none => s
  | none => s

/-- The `reset_view` block of `Scene::handle_user_input`: restores offset
`(0,0)` and scale `1` directly, *without* going through `set_scale`. -/
def Scene.hui_reset_view (s : Scene) (input : SceneUserInput) : Scene :=
  if input.reset_view then { s with offset := ⟨0, 0⟩, scale := 1 } else s

/-- `Scene::handle_user_input`: the source's sequential blocks, applied in
source order. -/
def Scene.handle_user_input (s : Scene) (input : SceneUserInput) : Scene :=
  (((((((s.hui_move_up input).hui_move_down input).hui_move_left
      input).hui_move_right input).hui_zoom_in input).hui_zoom_out
      input).hui_scroll input).hui_reset_view input

/-- The spec's scale-clamp invariant (§3, Camera/Scene): the clamp range is
set to `(mn, mx)` and the scale factor lies inside it. -/
def ScaleInv (mn mx : ℚ) (s : Scene) : Prop :=
  s.min_max_scale = some ⟨mn, mx⟩ ∧ mn ≤ s.scale ∧ s.scale ≤ mx

-- ----------------------------------------------------------------
-- graphics/mod.rs: FrameBuffer

/-- `graphics::FrameBuffer`: a row-major pixel buffer. -/
structure FrameBuffer where
  buffer : List Color
  size : ℕ × ℕ
  deriving DecidableEq

/-- `FrameBuffer::new`: `size.x * size.y` black pixels. -/
def FrameBuffer.new (size : ℕ × ℕ) : FrameBuffer :=
  { buffer := List.replicate (size.1 * size.2) (Color.new 0 0 0), size }

/-- `FrameBuffer::to_vec_u8`: the byte export.  The source iterates `i` over
`0 .. buffer.len() * (4 or 3)` and pushes the full `r, g, b(, 255)` of pixel
`i / (4 or 3)` on *every* iteration.  (`buffer[i / k]` is always in range, so
the `getD` default is never used.) -/
def FrameBuffer.to_vec_u8 (fb : FrameBuffer) (transparency : Bool) : List ℕ :=
  let output_length := fb.buffer.length
  (List.range (output_length * if transparency then 4 else 3)).foldl
    (fun output i =>
      let current_color := fb.buffer.getD (i / if transparency then 4 else 3) (Color.new 0 0 0)
      output ++ [current_color.r, current_color.g, current_color.b] ++
        (if transparency then [255] else []))
    []

-- ----------------------------------------------------------------
-- graphics/mod.rs: Rect

/-- `graphics::Rect`. -/
structure Rect where
  pos : Vec2
  size : Vec2
  color : Color
  z_index : ℕ
  deriving DecidableEq

/-- `Rect::new`: the size components are stored as absolute values. -/
def Rect.new (pos size : Vec2) (z_index : ℕ) (color : Color) : Rect :=
  { pos, size := ⟨|size.x|, |size.y|⟩, z_index, color }

/-- `Rect::scale` (from `impl Draw for Rect`): the source computes
`new_size = (size.x * times, size.x * times)`, using the `x` component for
both axes, then builds `Rect::new(pos * times, new_size, z_index, color)`. -/
def Rect.scale (r : Rect) (times : ℚ) : Rect :=
  let new_size : Vec2 := ⟨r.size.x * times, r.size.x * times⟩
  Rect.new ⟨r.pos.x * times, r.pos.y * times⟩ new_size r.z_index r.color

-- ----------------------------------------------------------------
-- graphics/mod.rs: Line

/-- `graphics::Line`. -/
structure Line where
  pos_1 : Vec2
  pos_2 : Vec2
  color : Color
  z_index : ℕ
  deriving DecidableEq

/-- `Line::new`. -/
def Line.new (pos_1 pos_2 : Vec2) (z_index : ℕ) (color : Color) : Line :=
  { pos_1, pos_2, color, z_index }

/-- The Bresenham loop of `Line::draw` (`impl Draw for Line`), producing the
sequence of integer points passed to `set_pixel`, in emission order.  The
fuel argument only bounds the recursion; every call below supplies
`|Δx| + |Δy| + 1` fuel, which the loop (each pass either terminates or moves
`(x0, y0)` one unit closer to `(x1, y1)`) never exhausts. -/
def bresenhamLoop (x1 y1 dx dy sx sy : ℤ) :
    ℕ → ℤ → ℤ → ℤ → List (ℤ × ℤ)
  | 0, _, _, _ => []
  | fuel + 1, x0, y0, error =>
    (x0, y0) ::
      (if x0 = x1 ∧ y0 = y1 then []
       else
         let e2 := 2 * error
         if dy ≤ e2 ∧ x0 = x1 then []
         else
           let error1 := if dy ≤ e2 then error + dy else error
           let x0' := if dy ≤ e2 then x0 + sx else x0
           if e2 ≤ dx ∧ y0 = y1 then []
           else
             let error2 := if e2 ≤ dx then error1 + dx else error1
             let y0' := if e2 ≤ dx then y0 + sy else y0
             bresenhamLoop x1 y1 dx dy sx sy fuel x0' y0' error2)

/-- `Line::draw`: truncates both endpoints to integers (`as i32`), then runs
the Bresenham loop; the result is the list of points handed to `set_pixel`
(each written pixel, in order; `set_pixel` itself additionally drops
out-of-range points). -/
def Line.draw_points (l : Line) : List (ℤ × ℤ) :=
  let x0 := truncQ l.pos_1.x
  let y0 := truncQ l.pos_1.y
  let x1 := truncQ l.pos_2.x
  let y1 := truncQ l.pos_2.y
  let dx := |x1 - x0|
  let dy := -|y1 - y0|
  let sx : ℤ := if x0 < x1 then 1 else -1
  let sy : ℤ := if y0 < y1 then 1 else -1
  bresenhamLoop x1 y1 dx dy sx sy ((x1 - x0).natAbs + (y1 - y0).natAbs + 1) x0 y0 (dx + dy)

-- ----------------------------------------------------------------
-- Concrete instances used by the claim theorems

/-- A zero force (used to build concrete bodies). -/
def forceZero : Force := Force.new ⟨0, 0⟩ 0

/-- Concrete body at the origin, mass `5` (hence radius `1`). -/
def bodyA : PhysicsBody := PhysicsBody.new ⟨0, 0⟩ 5 forceZero (Color.new 10 20 30)

/-- Concrete body far from `bodyA`. -/
def bodyB : PhysicsBody := PhysicsBody.new ⟨100, 0⟩ 5 forceZero (Color.new 40 50 60)

/-- Simulation with two bodies and the *second* one selected. -/
def simC1 : Simulation :=
  { bodies := [bodyA, bodyB]
    selected_body := some 1
    grav_const := DEFAULT_GRAV_CONST
    physics_speed := 1
    collision_mode := CollisionMode.None }

/-- Delete-mode simulation with three coincident (hence pairwise
intersecting) bodies. -/
def simC3 : Simulation :=
  { bodies := [bodyA, bodyA, bodyA]
    selected_body := none
    grav_const := DEFAULT_GRAV_CONST
    physics_speed := 1
    collision_mode := CollisionMode.Delete }

/-- Scene with a non-trivial offset and zoom (effective scale `2`). -/
def sceneC2 : Scene :=
  { Scene.new (500, 500) none with offset := ⟨3, 4⟩, scale := 2 }

/-- Scene whose clamp range `[2, 3]` does not contain the reset scale `1`. -/
def sceneC5 : Scene :=
  { Scene.new (500, 500) (some ⟨2, 3⟩) with scale := 5 / 2 }

/-- Scene input carrying only the reset-view intent. -/
def inputResetView : SceneUserInput :=
  { move_up := false, move_down := false, move_right := false, move_left := false
    zoom_in := false, zoom_out := false, reset_view := true
    mouse_screen_pos := none, mouse_scroll_wheel := none }

/-- Simulation input carrying only the speed-up intent. -/
def inputUpSpeed : SimulationInput :=
  { add_body := false, remove_body := false, print_body := false
    selected_body := false, up_speed := true, down_speed := false
    reset_contents := false, mouse_world_pos := none, mouse_scroll_wheel := none }

/-- Rectangle with distinct size components (`2 × 5` after the constructor's
absolute value). -/
def rectC6 : Rect := Rect.new ⟨1, 1⟩ ⟨2, 5⟩ 7 (Color.new 1 2 3)

/-- The line from `(0,0)` to `(5,0)`. -/
def lineC9 : Line := Line.new ⟨0, 0⟩ ⟨5, 0⟩ 2 (Color.new 255 255 255)

/-- A sequence of `add_trail` calls on a body: `ps` lists the body's position
at each call (between calls the position may change — by `set_pos` or
`move_self` — and neither touches the trail, so only the recorded positions
matter). -/
def runTrail (b : PhysicsBody) (ps : List Vec2) : PhysicsBody :=
  ps.foldl (fun b p => (b.set_pos p).add_trail) b

/-- The non-momentum observable state of a body, used to state the
gravity-tick frame condition. -/
structure BodyFrame where
  pos : Vec2
  mass : ℚ
  radius : ℚ
  color : Color
  trail : List Vec2

/-- Projection of a body onto everything except its momentum. -/
def PhysicsBody.frame (b : PhysicsBody) : BodyFrame :=
  ⟨b.pos, b.mass, b.radius, b.color, b.trail⟩

-- ----------------------------------------------------------------
-- Helper lemmas

theorem clampQ_mem (v lo hi : ℚ) (h : lo ≤ hi) :
    lo ≤ clampQ v lo hi ∧ clampQ v lo hi ≤ hi := by
  unfold clampQ
  split
  · exact ⟨le_rfl, h⟩
  · split
    · exact ⟨h, le_rfl⟩
    · next h1 h2 => exact ⟨le_of_not_lt h1, le_of_not_lt h2⟩

theorem clampNat_mem (v lo hi : ℕ) (h : lo ≤ hi) :
    lo ≤ clampNat v lo hi ∧ clampNat v lo hi ≤ hi := by
  unfold clampNat
  split
  · exact ⟨le_rfl, h⟩
  · split
    · exact ⟨h, le_rfl⟩
    · next h1 h2 => exact ⟨le_of_not_lt h1, le_of_not_lt h2⟩

-- ----------------------------------------------------------------
-- Claim theorems

/-- C1 (code_bug): with bodies `[bodyA, bodyB]` and selection `Some 1`,
`remove_body 0` removes the body at index `0` but leaves the selection at
`Some 1`, which no longer refers to an existing body of the one-element
collection — the source decrements the selection when `i > selected` instead
of when `i < selected`, so the claimed repair (and the resulting validity
invariant) fails. -/
theorem remove_body_selection_bug :
    (simC1.remove_body 0).selected_body = some 1 ∧
    (simC1.remove_body 0).bodies.length = 1 := by
  constructor <;> rfl

/-- C4 (code_bug): on a 1×1 framebuffer the byte export returns 9 bytes
without alpha and 16 with alpha — the source iterates over
`buffer.len() * (3 or 4)` loop indices and pushes a full pixel each time —
not the `width*height*3` / `width*height*4` bytes the claim states. -/
theorem to_vec_u8_length_bug :
    ((FrameBuffer.new (1, 1)).to_vec_u8 false).length = 9 ∧
    ((FrameBuffer.new (1, 1)).to_vec_u8 true).length = 16 := by
  constructor <;> rfl

/-- C6 (code_bug): scaling the `2 × 5` rectangle `rectC6` by `3` yields size
`(6, 6)`: the source uses `size.x` for both components of the new size, so
the `y` size is `size.x * k`, not the claimed `size.y * k = 15`. -/
theorem rect_scale_size_bug :
    (rectC6.scale 3).size = ⟨6, 6⟩ ∧ (rectC6.scale 3).size.y ≠ rectC6.size.y * 3 := by
  constructor
  · show Vec2.mk |(|(2:ℚ)| * 3)| |(|(2:ℚ)| * 3)| = ⟨6, 6⟩
    norm_num
  · show |(|(2:ℚ)| * 3)| ≠ |(5:ℚ)| * 3
    norm_num

/-- C7 (counterexample): constructing a simulation with
`physics_speed = Some 0` stores the multiplier `0`, violating the claimed
"at least 1 after construction (including `Some(0)`)": the constructor does
not clamp. -/
theorem new_physics_speed_zero_cex :
    (Simulation.new [] none (some 0) CollisionMode.None).physics_speed = 0 := rfl

theorem remove_body_physics_speed (s : Simulation) (i : ℕ) :
    (s.remove_body i).physics_speed = s.physics_speed := by
  unfold Simulation.remove_body
  split <;> rfl

theorem set_physics_speed_eq (s : Simulation) (w : ℕ) :
    (s.set_physics_speed w).physics_speed = clampNat w 1 16 := rfl

theorem one_le_clampNat_16 (w : ℕ) : 1 ≤ clampNat w 1 16 :=
  (clampNat_mem w 1 16 (by norm_num)).1

theorem hui_add_body_speed (s : Simulation) (input : SimulationInput)
    (fresh : ℕ → PhysicsBody) :
    (s.hui_add_body input fresh).physics_speed = s.physics_speed := by
  unfold Simulation.hui_add_body Simulation.add_body
  repeat' split
  all_goals rfl

theorem hui_remove_body_speed (s : Simulation) (input : SimulationInput) :
    (s.hui_remove_body input).physics_speed = s.physics_speed := by
  unfold Simulation.hui_remove_body
  repeat' split
  all_goals first
    | rfl
    | exact remove_body_physics_speed _ _

theorem hui_select_speed (s : Simulation) (input : SimulationInput) :
    (s.hui_select input).physics_speed = s.physics_speed := by
  unfold Simulation.hui_select
  repeat' split
  all_goals rfl

theorem hui_up_speed_ge (s : Simulation) (input : SimulationInput)
    (h : 1 ≤ s.physics_speed) : 1 ≤ (s.hui_up_speed input).physics_speed := by
  unfold Simulation.hui_up_speed
  split
  · rw [set_physics_speed_eq]
    exact one_le_clampNat_16 _
  · exact h

theorem hui_down_speed_ge (s : Simulation) (input : SimulationInput)
    (h : 1 ≤ s.physics_speed) : 1 ≤ (s.hui_down_speed input).physics_speed := by
  unfold Simulation.hui_down_speed
  split
  · rw [set_physics_speed_eq]
    exact one_le_clampNat_16 _
  · exact h

theorem hui_reset_speed (s : Simulation) (input : SimulationInput)
    (fresh : ℕ → PhysicsBody) :
    (s.hui_reset input fresh).physics_speed = s.physics_speed := by
  unfold Simulation.hui_reset
  split
  all_goals rfl

theorem handle_user_input_speed (s : Simulation) (input : SimulationInput)
    (fresh : ℕ → PhysicsBody) (h : 1 ≤ s.physics_speed) :
    1 ≤ (s.handle_user_input input fresh).physics_speed := by
  unfold Simulation.handle_user_input
  rw [hui_reset_speed]
  apply hui_down_speed_ge
  apply hui_up_speed_ge
  rw [hui_select_speed, hui_remove_body_speed, hui_add_body_speed]
  exact h

/-- C7 (corrected): the physics-speed multiplier is `≥ 1` after construction
only when the argument is `none` (default `1`) or `some v` with `v ≥ 1` —
the constructor stores the argument unclamped, so `some 0` yields `0`
(see the counterexample) — while `set_physics_speed` clamps into `[1, 16]`
and `handle_user_input` preserves `≥ 1`. -/
theorem physics_speed_invariant (bodies : List PhysicsBody) (g : Option ℚ)
    (v w : ℕ) (mode : CollisionMode) (s : Simulation) (input : SimulationInput)
    (fresh : ℕ → PhysicsBody) (hv : 1 ≤ v) (hs : 1 ≤ s.physics_speed) :
    1 ≤ (Simulation.new bodies g (some v) mode).physics_speed ∧
    (Simulation.new bodies g none mode).physics_speed = 1 ∧
    (1 ≤ (s.set_physics_speed w).physics_speed ∧
      (s.set_physics_speed w).physics_speed ≤ 16) ∧
    1 ≤ (s.handle_user_input input fresh).physics_speed := by
  refine ⟨hv, rfl, ?_, handle_user_input_speed s input fresh hs⟩
  rw [set_physics_speed_eq]
  exact clampNat_mem w 1 16 (by norm_num)

theorem physics_speed_invariant_witness :
    1 ≤ (Simulation.new [] none (some 3) CollisionMode.None).physics_speed ∧
    (Simulation.new [] none none CollisionMode.None).physics_speed = 1 ∧
    (1 ≤ (simC1.set_physics_speed 99).physics_speed ∧
      (simC1.set_physics_speed 99).physics_speed ≤ 16) ∧
    1 ≤ (simC1.handle_user_input inputUpSpeed (fun _ => bodyA)).physics_speed :=
  physics_speed_invariant [] none 3 99 CollisionMode.None simC1 inputUpSpeed
    (fun _ => bodyA) (by norm_num) (by norm_num [simC1])

/-- C2 (confirmed, spec-modelled): the source's `world_to_screen_coords` is
`unimplemented!()`, so the screen-ward map is taken from the spec
(`Scene.world_to_screen_spec`, the algebraic inverse
`(p + offset) * effective_scale`); with it, for every scene whose effective
scale is non-zero and every screen point `p`, mapping through
`screen_to_world_coords` and back returns `p` exactly. -/
theorem world_to_screen_round_trip (s : Scene) (p : Vec2)
    (h : s.get_scale ≠ 0) :
    s.world_to_screen_spec (s.screen_to_world_coords p) = p := by
  unfold Scene.world_to_screen_spec Scene.screen_to_world_coords
  obtain ⟨px, py⟩ := p
  simp only [Vec2.mk.injEq]
  constructor <;> (field_simp; ring)

theorem world_to_screen_round_trip_witness :
    sceneC2.get_scale ≠ 0 ∧
    sceneC2.world_to_screen_spec (sceneC2.screen_to_world_coords ⟨7, 9⟩) = ⟨7, 9⟩ := by
  have h : sceneC2.get_scale ≠ 0 := by
    norm_num [sceneC2, Scene.new, Scene.get_scale]
  exact ⟨h, world_to_screen_round_trip sceneC2 ⟨7, 9⟩ h⟩

theorem set_scale_min_max (s : Scene) (v : ℚ) :
    (s.set_scale v).min_max_scale = s.min_max_scale := by
  unfold Scene.set_scale
  split <;> rfl

theorem set_scale_scale (s : Scene) (v : ℚ) (mm : Vec2)
    (hm : s.min_max_scale = some mm) :
    (s.set_scale v).scale = clampQ v mm.x mm.y := by
  simp [Scene.set_scale, hm]

theorem change_scale_scale (s : Scene) (a : ℚ) :
    (s.change_scale a).scale = (s.set_scale (s.scale + a)).scale := by
  unfold Scene.change_scale
  dsimp only
  split <;> rfl

theorem change_scale_min_max (s : Scene) (a : ℚ) :
    (s.change_scale a).min_max_scale = s.min_max_scale := by
  unfold Scene.change_scale
  dsimp only
  split <;> simp [set_scale_min_max]

theorem scaleInv_set_scale (s : Scene) (mn mx v : ℚ) (hle : mn ≤ mx)
    (hm : s.min_max_scale = some ⟨mn, mx⟩) : ScaleInv mn mx (s.set_scale v) := by
  refine ⟨by rw [set_scale_min_max]; exact hm, ?_, ?_⟩ <;>
    rw [set_scale_scale s v ⟨mn, mx⟩ hm]
  · exact (clampQ_mem v mn mx hle).1
  · exact (clampQ_mem v mn mx hle).2

theorem scaleInv_change_scale (s : Scene) (mn mx a : ℚ) (hle : mn ≤ mx)
    (h : ScaleInv mn mx s) : ScaleInv mn mx (s.change_scale a) := by
  have h' := scaleInv_set_scale s mn mx (s.scale + a) hle h.1
  exact ⟨by rw [change_scale_min_max]; exact h.1,
    by rw [change_scale_scale]; exact h'.2.1,
    by rw [change_scale_scale]; exact h'.2.2⟩

theorem scaleInv_set_offset (s : Scene) (mn mx : ℚ) (v : Vec2)
    (h : ScaleInv mn mx s) : ScaleInv mn mx (s.set_offset v) := h

theorem scaleInv_hui_move_up (s : Scene) (mn mx : ℚ) (input : SceneUserInput)
    (h : ScaleInv mn mx s) : ScaleInv mn mx (s.hui_move_up input) := by
  unfold Scene.hui_move_up
  split
  · exact scaleInv_set_offset s mn mx _ h
  · exact h

theorem scaleInv_hui_move_down (s : Scene) (mn mx : ℚ) (input : SceneUserInput)
    (h : ScaleInv mn mx s) : ScaleInv mn mx (s.hui_move_down input) := by
  unfold Scene.hui_move_down
  split
  · exact scaleInv_set_offset s mn mx _ h
  · exact h

theorem scaleInv_hui_move_left (s : Scene) (mn mx : ℚ) (input : SceneUserInput)
    (h : ScaleInv mn mx s) : ScaleInv mn mx (s.hui_move_left input) := by
  unfold Scene.hui_move_left
  split
  · exact scaleInv_set_offset s mn mx _ h
  · exact h

theorem scaleInv_hui_move_right (s : Scene) (mn mx : ℚ) (input : SceneUserInput)
    (h : ScaleInv mn mx s) : ScaleInv mn mx (s.hui_move_right input) := by
  unfold Scene.hui_move_right
  split
  · exact scaleInv_set_offset s mn mx _ h
  · exact h

theorem scaleInv_hui_zoom_in (s : Scene) (mn mx : ℚ) (input : SceneUserInput)
    (hle : mn ≤ mx) (h : ScaleInv mn mx s) : ScaleInv mn mx (s.hui_zoom_in input) := by
  unfold Scene.hui_zoom_in
  split
  · exact scaleInv_change_scale s mn mx _ hle h
  · exact h

theorem scaleInv_hui_zoom_out (s : Scene) (mn mx : ℚ) (input : SceneUserInput)
    (hle : mn ≤ mx) (h : ScaleInv mn mx s) : ScaleInv mn mx (s.hui_zoom_out input) := by
  unfold Scene.hui_zoom_out
  split
  · exact scaleInv_change_scale s mn mx _ hle h
  · exact h

theorem scaleInv_hui_scroll (s : Scene) (mn mx : ℚ) (input : SceneUserInput)
    (hle : mn ≤ mx) (h : ScaleInv mn mx s) : ScaleInv mn mx (s.hui_scroll input) := by
  unfold Scene.hui_scroll
  repeat' split
  all_goals first
    | exact scaleInv_change_scale s mn mx _ hle h
    | exact h

theorem hui_reset_view_of_false (s : Scene) (input : SceneUserInput)
    (hr : input.reset_view = false) : s.hui_reset_view input = s := by
  simp [Scene.hui_reset_view, hr]

theorem hui_reset_view_of_true (s : Scene) (input : SceneUserInput)
    (hr : input.reset_view = true) : (s.hui_reset_view input).scale = 1 := by
  simp [Scene.hui_reset_view, hr]

/-- C5 (corrected): with a clamp range `some (mn, mx)` (`mn ≤ mx`), the scale
stays inside `[mn, mx]` after `set_scale`, after `change_scale`, and after
every `handle_user_input` whose reset-view intent is off; the reset-view
intent instead sets the scale to exactly `1` without applying the clamp, so
the claimed invariant fails for it whenever `1 ∉ [mn, mx]` (see the
counterexample). -/
theorem scale_clamp_invariant (s : Scene) (mn mx v a : ℚ)
    (input : SceneUserInput) (hm : s.min_max_scale = some ⟨mn, mx⟩)
    (hle : mn ≤ mx) (hs1 : mn ≤ s.scale) (hs2 : s.scale ≤ mx) :
    (mn ≤ (s.set_scale v).scale ∧ (s.set_scale v).scale ≤ mx) ∧
    (mn ≤ (s.change_scale a).scale ∧ (s.change_scale a).scale ≤ mx) ∧
    (input.reset_view = false →
      mn ≤ (s.handle_user_input input).scale ∧
        (s.handle_user_input input).scale ≤ mx) ∧
    (input.reset_view = true → (s.handle_user_input input).scale = 1) := by
  have hInv : ScaleInv mn mx s := ⟨hm, hs1, hs2⟩
  have hset := scaleInv_set_scale s mn mx v hle hm
  have hchg := scaleInv_change_scale s mn mx a hle hInv
  have hchain : ScaleInv mn mx
      (((((((s.hui_move_up input).hui_move_down input).hui_move_left
        input).hui_move_right input).hui_zoom_in input).hui_zoom_out
        input).hui_scroll input) :=
    scaleInv_hui_scroll _ mn mx input hle
      (scaleInv_hui_zoom_out _ mn mx input hle
        (scaleInv_hui_zoom_in _ mn mx input hle
          (scaleInv_hui_move_right _ mn mx input
            (scaleInv_hui_move_left _ mn mx input
              (scaleInv_hui_move_down _ mn mx input
                (scaleInv_hui_move_up _ mn mx input hInv))))))
  refine ⟨⟨hset.2.1, hset.2.2⟩, ⟨hchg.2.1, hchg.2.2⟩, ?_, ?_⟩
  · intro hr
    unfold Scene.handle_user_input
    rw [hui_reset_view_of_false _ input hr]
    exact ⟨hchain.2.1, hchain.2.2⟩
  · intro hr
    unfold Scene.handle_user_input
    exact hui_reset_view_of_true _ input hr

theorem scale_clamp_invariant_witness :
    sceneC5.min_max_scale = some ⟨2, 3⟩ ∧ (2 : ℚ) ≤ 3 ∧
    2 ≤ sceneC5.scale ∧ sceneC5.scale ≤ 3 ∧
    (2 ≤ (sceneC5.set_scale 7).scale ∧ (sceneC5.set_scale 7).scale ≤ 3) := by
  have hm : sceneC5.min_max_scale = some ⟨2, 3⟩ := rfl
  have h1 : (2 : ℚ) ≤ sceneC5.scale := by norm_num [sceneC5, Scene.new]
  have h2 : sceneC5.scale ≤ 3 := by norm_num [sceneC5, Scene.new]
  exact ⟨hm, by norm_num, h1, h2,
    (scale_clamp_invariant sceneC5 2 3 7 0 inputResetView hm (by norm_num)
      h1 h2).1⟩

/-- C5 (counterexample): on `sceneC5`, whose clamp range is `[2, 3]`, the
reset-view intent leaves the scale at `1`, outside the clamp range — the
reset path assigns `scale = 1.0` directly instead of going through
`set_scale`. -/
theorem reset_view_escapes_clamp_cex :
    sceneC5.min_max_scale = some ⟨2, 3⟩ ∧
    (sceneC5.handle_user_input inputResetView).scale = 1 ∧
    ¬(2 ≤ (sceneC5.handle_user_input inputResetView).scale) := by
  have h : (sceneC5.handle_user_input inputResetView).scale = 1 := rfl
  refine ⟨rfl, h, ?_⟩
  rw [h]
  norm_num

theorem trailStep_eq (t : List Vec2) (p : Vec2) :
    trailStep t p = if 1000 < t.length + 1 then (t ++ [p]).drop 1 else t ++ [p] := by
  simp [trailStep, MAX_TRAIL_LENGTH]

theorem trailFold_drop (ps : List Vec2) :
    List.foldl trailStep [] ps = ps.drop (ps.length - 1000) := by
  induction ps using List.reverseRecOn with
  | nil => simp
  | append_singleton ps p ih =>
      rw [List.foldl_append, List.foldl_cons, List.foldl_nil, ih, trailStep_eq,
        List.length_drop]
      by_cases h : ps.length < 1000
      · rw [if_neg (by omega)]
        have h0 : ps.length - 1000 = 0 := by omega
        have h1 : (ps ++ [p]).length - 1000 = 0 := by
          rw [List.length_append]
          simp only [List.length_cons, List.length_nil]
          omega
        rw [h0, h1, List.drop_zero, List.drop_zero]
      · rw [if_pos (by omega),
          ← List.drop_append_of_le_length (by omega : ps.length - 1000 ≤ ps.length),
          List.drop_drop]
        have hidx : ps.length - 1000 + 1 = (ps ++ [p]).length - 1000 := by
          rw [List.length_append]
          simp only [List.length_cons, List.length_nil]
          omega
        rw [hidx]

theorem runTrail_trail (ps : List Vec2) (b : PhysicsBody) :
    (runTrail b ps).trail = List.foldl trailStep b.trail ps := by
  induction ps generalizing b with
  | nil => rfl
  | cons p t ih => exact ih ((b.set_pos p).add_trail)

/-- C8 (confirmed): starting from a freshly-constructed body (whose trail is
empty), after `ps.length` calls to `add_trail` recording the positions `ps`
in order, the trail is exactly the most recent `min(ps.length, 1000)`
recorded positions in chronological order (the oldest dropped from the
front), so it never exceeds 1000 entries. -/
theorem trail_cap_most_recent (pos : Vec2) (mass : ℚ) (momentum : Force)
    (color : Color) (ps : List Vec2) :
    (runTrail (PhysicsBody.new pos mass momentum color) ps).trail
        = ps.drop (ps.length - 1000) ∧
    (runTrail (PhysicsBody.new pos mass momentum color) ps).trail.length
        = min ps.length 1000 := by
  have h := runTrail_trail ps (PhysicsBody.new pos mass momentum color)
  rw [show (PhysicsBody.new pos mass momentum color).trail = [] from rfl] at h
  rw [h, trailFold_drop]
  exact ⟨rfl, by rw [List.length_drop]; omega⟩

theorem map_frame_modifyIdx (l : List PhysicsBody) (i : ℕ)
    (f : PhysicsBody → PhysicsBody) (hf : ∀ b, (f b).frame = b.frame) :
    (modifyIdx l i f).map PhysicsBody.frame = l.map PhysicsBody.frame := by
  induction l generalizing i with
  | nil => rfl
  | cons a t ih =>
      cases i with
      | zero => simp [modifyIdx, hf]
      | succ n => simp [modifyIdx, ih]

theorem map_frame_foldl_momentum (prs : List (ℕ × ℕ)) (F : ℕ × ℕ → Force)
    (acc : List PhysicsBody) :
    (prs.foldl
        (fun acc ij =>
          modifyIdx acc ij.1 (fun b => b.set_momentum (b.momentum + F ij)))
        acc).map PhysicsBody.frame = acc.map PhysicsBody.frame := by
  induction prs generalizing acc with
  | nil => rfl
  | cons ij t ih =>
      rw [List.foldl_cons, ih]
      exact map_frame_modifyIdx _ _ _ (fun b => rfl)

/-- C10 (confirmed): one gravity tick only changes momenta — every body's
position, mass, radius, color and trail (its `frame`) are unchanged, the
body count is unchanged, and the selection, gravitational constant, physics
speed and collision mode are unchanged. -/
theorem gravity_tick_only_momentum (s : Simulation) :
    (s.gravity_tick).bodies.map PhysicsBody.frame = s.bodies.map PhysicsBody.frame ∧
    (s.gravity_tick).bodies.length = s.bodies.length ∧
    (s.gravity_tick).selected_body = s.selected_body ∧
    (s.gravity_tick).grav_const = s.grav_const ∧
    (s.gravity_tick).physics_speed = s.physics_speed ∧
    (s.gravity_tick).collision_mode = s.collision_mode := by
  have hmap : (s.gravity_tick).bodies.map PhysicsBody.frame
      = s.bodies.map PhysicsBody.frame := by
    unfold Simulation.gravity_tick
    dsimp only
    exact map_frame_foldl_momentum _ _ _
  have hlen : (s.gravity_tick).bodies.length = s.bodies.length := by
    have := congrArg List.length hmap
    simpa using this
  exact ⟨hmap, hlen, rfl, rfl, rfl, rfl⟩

theorem bresenhamLoop_same (x1 y1 dx dy sx sy : ℤ) (fuel : ℕ) (e : ℤ) :
    bresenhamLoop x1 y1 dx dy sx sy (fuel + 1) x1 y1 e = [(x1, y1)] := by
  simp [bresenhamLoop]

/-- C9 (confirmed): the Bresenham rasterisation of the line from `(0,0)` to
`(5,0)` emits exactly the six pixels `(0,0) … (5,0)` (in order, none
repeated, no others), and every line whose two endpoints truncate to the
same integer pixel emits exactly that single pixel. -/
theorem bresenham_line_pixels :
    lineC9.draw_points = [(0, 0), (1, 0), (2, 0), (3, 0), (4, 0), (5, 0)] ∧
    ∀ (p q : Vec2) (z : ℕ) (c : Color),
      truncQ p.x = truncQ q.x → truncQ p.y = truncQ q.y →
      (Line.new p q z c).draw_points = [(truncQ p.x, truncQ p.y)] := by
  constructor
  · rfl
  · intro p q z c hx hy
    unfold Line.draw_points Line.new
    dsimp only
    rw [← hx, ← hy]
    rw [sub_self, sub_self]
    simp only [Int.natAbs_zero, Nat.add_eq, Nat.zero_add]
    exact bresenhamLoop_same _ _ _ _ _ _ _ _

theorem bresenham_line_pixels_witness :
    truncQ (0 : ℚ) = truncQ (0 : ℚ) ∧
    (Line.new ⟨0, 0⟩ ⟨0, 0⟩ 3 (Color.new 9 9 9)).draw_points = [(0, 0)] := by
  refine ⟨rfl, ?_⟩
  exact (bresenham_line_pixels.2 ⟨0, 0⟩ ⟨0, 0⟩ 3 (Color.new 9 9 9) rfl rfl)

theorem sqrtQ_zero : sqrtQ 0 = 0 := by
  rw [sqrtQ, if_neg (by norm_num), if_pos (by exact ⟨rfl, rfl⟩)]
  rw [show isqrt (0 : ℚ).num.toNat = 0 from rfl,
    show isqrt (0 : ℚ).den = 1 from rfl]
  norm_num

theorem bodyA_intersects_bodyA : bodyA.intersects bodyA := by
  unfold PhysicsBody.intersects PhysicsBody.distance_between
  norm_num [bodyA, PhysicsBody.new, sqrtQ_zero]

theorem simC3_to_del : simC3.collision_to_del = [0, 1, 0, 2, 1, 2] := by
  unfold Simulation.collision_to_del
  dsimp only
  rw [show simC3.bodies.length = 3 from rfl,
    show combinations2 3 = [(0, 1), (0, 2), (1, 2)] from rfl]
  simp only [List.foldl_cons, List.foldl_nil]
  rw [show simC3.bodies.getD 0 dummyBody = bodyA from rfl,
    show simC3.bodies.getD 1 dummyBody = bodyA from rfl,
    show simC3.bodies.getD 2 dummyBody = bodyA from rfl,
    if_pos bodyA_intersects_bodyA, if_pos bodyA_intersects_bodyA,
    if_pos bodyA_intersects_bodyA]
  rfl

/-- C3 (code_bug): on three coincident (pairwise intersecting) bodies the
`Delete` collision tick panics instead of removing each overlapping body
once: the collected index list `[0,1,0,2,1,2]` has no *consecutive*
duplicates, so `Vec::dedup` removes nothing, and removing in reversed
collection order `[2,1,2,0,1,0]` reaches `remove(2)` on a 1-element vector —
modelled by the tick returning `none`. -/
theorem collision_tick_delete_panics : simC3.collision_tick = none := by
  unfold Simulation.collision_tick
  rw [show simC3.collision_mode = CollisionMode.Delete from rfl]
  dsimp only
  rw [simC3_to_del]
  rfl
